import Mathlib

/-!
Verification of the flux bootstrap utility (Go), shallowly embedded in Lean.

The embedding covers:
 - the settings store (`internal/config/config.go`): the `Config` record,
   its YAML encoding/decoding (field tags with `omitempty`), defaults,
   `LoadOrCreate`, and `promptBool`; and the second revision of the same
   package (in `src/unnamed/part_001`) whose `ToExtraVars` omits versions
   equal to "latest";
 - the external runner (`internal/ansible/runner.go`): argument
   construction for `RunPlaybook` and `RunPlaybookStreaming`, the
   elevation-secret temp file lifecycle, and `FindAnsibleDir` candidate
   priority;
 - the menu front end (package tui, in `internal/updater/updater.go`): the
   role-selection toggle-all handler and `executePlaybook`.

Modelling conventions: filesystem paths are lists of components (so
`filepath.Dir` is `dropLast` and `filepath.Join` with `..` segments is
cleaning-free); a YAML mapping and the extra-vars map are functions from
key to optional value (`none` = key absent); the filesystem, the
interactive prompter and subprocess outcomes are explicit environment
parameters, so every function is pure and executable.
-/

namespace Flux

/-! ## Settings document (struct Config, internal/config/config.go lines 19-38) -/

/-- The Config struct of `internal/config/config.go`.  Go field order and
YAML tag names are kept; the `omitempty` tags are reflected in
`yamlMarshal`. -/
structure Config where
  username : String
  email : String
  gitName : String
  gitEmail : String
  gitHTTPS : Bool
  defaultShell : String
  installPodman : Bool
  podmanWSLDistro : String
  podmanWSLHost : String
  podmanWSLPort : String
  installBun : Bool
  installGo : Bool
  goVersion : String
  installDotnet : Bool
  dotnetVersion : String
  installPython : Bool
  pythonVersion : String
  extraPackages : List String
deriving DecidableEq

/-- The Go zero value of Config: what `var cfg Config` holds before
`yaml.Unmarshal` fills in the fields present in the document. -/
def zeroConfig : Config :=
  { username := "", email := "", gitName := "", gitEmail := ""
    gitHTTPS := false, defaultShell := "", installPodman := false
    podmanWSLDistro := "", podmanWSLHost := "", podmanWSLPort := ""
    installBun := false, installGo := false, goVersion := ""
    installDotnet := false, dotnetVersion := "", installPython := false
    pythonVersion := "", extraPackages := [] }

/-- `DefaultConfig` (config.go lines 41-59); `whoami()` reads the USER
environment variable, passed in here as `user`. -/
def defaultConfig (user : String) : Config :=
  { username := user, email := "", gitName := "", gitEmail := ""
    gitHTTPS := true, defaultShell := "zsh", installPodman := true
    podmanWSLDistro := "podman-machine", podmanWSLHost := "localhost"
    podmanWSLPort := "22", installBun := true, installGo := true
    goVersion := "1.26", installDotnet := true, dotnetVersion := "10.0"
    installPython := true, pythonVersion := "3.13"
    extraPackages := ["ripgrep", "fd-find", "jq", "htop"] }

/-! ## YAML encoding (gopkg.in/yaml.v3 over the tagged struct)

A marshalled settings document is modelled as the mapping it denotes: a
function from tag name to optional value, `none` meaning the key is
absent.  `yaml.Marshal` drops an `omitempty` field whose value is the
zero value (empty string / empty slice); `yaml.Unmarshal` into a
zero-valued struct sets exactly the fields whose keys are present and
leaves the rest at the Go zero value. -/

/-- A YAML (or extra-vars) value: the three value shapes Config uses. -/
inductive YamlVal where
  | str (s : String)
  | bool (b : Bool)
  | list (l : List String)
deriving DecidableEq

def YamlMap : Type := String → Option YamlVal

/-- `yaml.Marshal` applied to a Config (`Save`, config.go lines 87-97).
The `omitempty`-tagged fields (podman_wsl_distro, podman_wsl_host,
podman_wsl_port, go_version, dotnet_version, python_version,
extra_packages) are absent when their value is empty. -/
def yamlMarshal (c : Config) : YamlMap := fun k =>
  if k = "username" then some (.str c.username)
  else if k = "email" then some (.str c.email)
  else if k = "git_name" then some (.str c.gitName)
  else if k = "git_email" then some (.str c.gitEmail)
  else if k = "git_https" then some (.bool c.gitHTTPS)
  else if k = "default_shell" then some (.str c.defaultShell)
  else if k = "install_podman" then some (.bool c.installPodman)
  else if k = "podman_wsl_distro" then
    (if c.podmanWSLDistro = "" then none else some (.str c.podmanWSLDistro))
  else if k = "podman_wsl_host" then
    (if c.podmanWSLHost = "" then none else some (.str c.podmanWSLHost))
  else if k = "podman_wsl_port" then
    (if c.podmanWSLPort = "" then none else some (.str c.podmanWSLPort))
  else if k = "install_bun" then some (.bool c.installBun)
  else if k = "install_go" then some (.bool c.installGo)
  else if k = "go_version" then
    (if c.goVersion = "" then none else some (.str c.goVersion))
  else if k = "install_dotnet" then some (.bool c.installDotnet)
  else if k = "dotnet_version" then
    (if c.dotnetVersion = "" then none else some (.str c.dotnetVersion))
  else if k = "install_python" then some (.bool c.installPython)
  else if k = "python_version" then
    (if c.pythonVersion = "" then none else some (.str c.pythonVersion))
  else if k = "extra_packages" then
    (if c.extraPackages = [] then none else some (.list c.extraPackages))
  else none

/-- Decoding a string field: absent key or wrong shape leaves the Go zero
value. -/
def getStr (d : YamlMap) (k : String) : String :=
  match d k with
  | some (.str s) => s
  | _ => ""

def getBool (d : YamlMap) (k : String) : Bool :=
  match d k with
  | some (.bool b) => b
  | _ => false

def getList (d : YamlMap) (k : String) : List String :=
  match d k with
  | some (.list l) => l
  | _ => []

/-- `yaml.Unmarshal` of a document into a zero-valued Config (`Load`,
config.go lines 68-78): a field keeps the Go zero value unless its key is
present in the document. -/
def yamlUnmarshal (d : YamlMap) : Config :=
  { username := getStr d "username", email := getStr d "email"
    gitName := getStr d "git_name", gitEmail := getStr d "git_email"
    gitHTTPS := getBool d "git_https", defaultShell := getStr d "default_shell"
    installPodman := getBool d "install_podman"
    podmanWSLDistro := getStr d "podman_wsl_distro"
    podmanWSLHost := getStr d "podman_wsl_host"
    podmanWSLPort := getStr d "podman_wsl_port"
    installBun := getBool d "install_bun", installGo := getBool d "install_go"
    goVersion := getStr d "go_version"
    installDotnet := getBool d "install_dotnet"
    dotnetVersion := getStr d "dotnet_version"
    installPython := getBool d "install_python"
    pythonVersion := getStr d "python_version"
    extraPackages := getList d "extra_packages" }

/-! ## LoadOrCreate (config.go lines 100-116)

`Load`, `PromptForConfig` and `Save` perform I/O; their outcomes are an
explicit environment.  `loadOrCreate` records, besides the returned
document, whether the prompter ran and whether a save wrote the settings
file. -/

structure ConfigEnv where
  /-- Outcome of `Load()`: `some c` when the settings file exists and
  parses to `c`, `none` when `Load` returns an error. -/
  loadResult : Option Config
  /-- Outcome of `PromptForConfig(nil)`: `none` models an I/O failure. -/
  promptResult : Option Config
  /-- Whether `Save` succeeds. -/
  saveOk : Bool

structure LoadOrCreateOut where
  /-- The returned document, `none` on a propagated error. -/
  result : Option Config
  /-- Whether the interactive prompter ran. -/
  prompted : Bool
  /-- Whether the settings file was written. -/
  saved : Bool
deriving DecidableEq

/-- `LoadOrCreate` (config.go lines 100-116): on successful `Load` return
the loaded document; otherwise prompt, save the result, and propagate
prompt or save failures. -/
def loadOrCreate (env : ConfigEnv) : LoadOrCreateOut :=
  match env.loadResult with
  | some c => ⟨some c, false, false⟩
  | none =>
    match env.promptResult with
    | none => ⟨none, true, false⟩
    | some c => if env.saveOk then ⟨some c, true, true⟩ else ⟨none, true, false⟩

/-! ## String helpers (strings.ToLower, strings.TrimSpace,
strings.EqualFold)

The Go originals fold full Unicode; the settings values in play are
ASCII, and these embeddings implement the ASCII case. -/

/-- The whitespace recognized by `strings.TrimSpace` (ASCII subset). -/
def isSpace (c : Char) : Bool :=
  c = ' ' || c = '\t' || c = '\n' || c = '\x0b' || c = '\x0c' || c = '\r'

/-- ASCII lower-casing of one character. -/
def charLower (c : Char) : Char :=
  if 65 ≤ c.toNat ∧ c.toNat ≤ 90 then Char.ofNat (c.toNat + 32) else c

/-- `strings.ToLower`. -/
def strToLower (s : String) : String :=
  String.mk (s.data.map charLower)

/-- `strings.TrimSpace`: drop whitespace from both ends. -/
def strTrim (s : String) : String :=
  String.mk (((s.data.dropWhile isSpace).reverse.dropWhile isSpace).reverse)

/-! ## promptBool (config.go lines 291-306; identical in part_001 lines
336-351)

The line read from stdin is a parameter; the I/O error path (ReadString
failing) propagates the error and is not part of the returned boolean. -/

/-- `promptBool`: lower-case, trim; an empty response keeps the current
value; otherwise only the exact tokens y and yes are truthy. -/
def promptBool (line : String) (current : Bool) : Bool :=
  let l := strTrim (strToLower line)
  if l = "" then current
  else l == "y" || l == "yes"

/-! ## The second config revision (src/unnamed/part_001)

Same package in a different revision: the struct gains `InstallK9s`,
versions default to "latest", and `ToExtraVars` becomes typed and omits
version fields equal to "latest".  The captured struct declaration omits
the three podman WSL fields although the functions of the same file still
read them, so they are kept here. -/

structure Config2 where
  username : String
  email : String
  gitName : String
  gitEmail : String
  gitHTTPS : Bool
  defaultShell : String
  installPodman : Bool
  installBun : Bool
  installGo : Bool
  goVersion : String
  installDotnet : Bool
  dotnetVersion : String
  installPython : Bool
  pythonVersion : String
  installK9s : Bool
  extraPackages : List String
  podmanWSLDistro : String
  podmanWSLHost : String
  podmanWSLPort : String
deriving DecidableEq

/-- `strings.EqualFold` as used on the ASCII sentinel "latest": equality
after case folding (ASCII lower-casing). -/
def eqFold (a b : String) : Bool :=
  strToLower a == strToLower b

/-- Map update, modelling assignment to a Go map entry. -/
def mapSet (m : YamlMap) (k : String) (v : YamlVal) : YamlMap :=
  fun q => if q = k then some v else m q

/-- The map literal `vars` of `ToExtraVars` (part_001 lines 246-263):
everything except the version fields, which are assigned conditionally
afterwards.  Note go_version is never passed in this revision. -/
def toExtraVarsBase (c : Config2) : YamlMap := fun k =>
  if k = "username" then some (.str c.username)
  else if k = "email" then some (.str c.email)
  else if k = "git_name" then some (.str c.gitName)
  else if k = "git_email" then some (.str c.gitEmail)
  else if k = "git_https" then some (.bool c.gitHTTPS)
  else if k = "default_shell" then some (.str c.defaultShell)
  else if k = "install_podman" then some (.bool c.installPodman)
  else if k = "podman_wsl_distro" then some (.str c.podmanWSLDistro)
  else if k = "podman_wsl_host" then some (.str c.podmanWSLHost)
  else if k = "podman_wsl_port" then some (.str c.podmanWSLPort)
  else if k = "install_bun" then some (.bool c.installBun)
  else if k = "install_go" then some (.bool c.installGo)
  else if k = "install_dotnet" then some (.bool c.installDotnet)
  else if k = "install_python" then some (.bool c.installPython)
  else if k = "install_k9s" then some (.bool c.installK9s)
  else if k = "extra_packages" then some (.list c.extraPackages)
  else none

/-- `ToExtraVars` (part_001 lines 245-281): version extra-vars are set
only when the requested version is not "latest" (EqualFold); a nil
ExtraPackages is replaced by an explicit empty list. -/
def toExtraVars (c : Config2) : YamlMap :=
  let vars := toExtraVarsBase c
  let vars :=
    if eqFold c.dotnetVersion "latest" then vars
    else mapSet vars "dotnet_version" (.str c.dotnetVersion)
  let vars :=
    if eqFold c.pythonVersion "latest" then vars
    else mapSet vars "python_version" (.str c.pythonVersion)
  let vars :=
    if c.extraPackages = [] then mapSet vars "extra_packages" (.list [])
    else vars
  vars

/-! ## Runner argument construction (internal/ansible/runner.go)

`RunPlaybook` appears twice in the captured runner.go (two revisions,
lines 88-137 and 370-418); both build the identical argument list, shown
here once.  `json.Marshal` of the extra-vars map and the stat of
playbook.yml are not modelled in the argument builders: the serialized
blob is the `varsJSON` parameter, and `hasVars` is `len(extraVars) > 0`. -/

/-- The `args` slice built by `RunPlaybook` (runner.go lines 96-121):
playbook path, inventory, local connection, optional extra-vars blob,
optional tag filter, check/diff when dry-running, and
`--ask-become-pass` for non-root callers. -/
def runPlaybookArgs (ansibleDir varsJSON : String) (hasVars : Bool)
    (tags : String) (dryRun : Bool) (uid : Nat) : List String :=
  [ansibleDir ++ "/playbook.yml", "-i", ansibleDir ++ "/inventory.ini",
   "--connection=local"]
  ++ (if hasVars then ["--extra-vars", varsJSON] else [])
  ++ (if tags ≠ "" then ["--tags", tags] else [])
  ++ (if dryRun then ["--check", "--diff"] else [])
  ++ (if uid ≠ 0 then ["--ask-become-pass"] else [])

/-- The `args` slice built by `RunPlaybookStreaming` (runner.go lines
184-230): as `runPlaybookArgs`, except that a non-root caller with a
non-empty become password gets `--become-password-file <tmp>` instead of
`--ask-become-pass`. -/
def runPlaybookStreamingArgs (ansibleDir varsJSON : String) (hasVars : Bool)
    (tags : String) (dryRun : Bool) (uid : Nat) (becomePass tmpName : String) :
    List String :=
  [ansibleDir ++ "/playbook.yml", "-i", ansibleDir ++ "/inventory.ini",
   "--connection=local"]
  ++ (if hasVars then ["--extra-vars", varsJSON] else [])
  ++ (if tags ≠ "" then ["--tags", tags] else [])
  ++ (if dryRun then ["--check", "--diff"] else [])
  ++ (if uid ≠ 0 then
        (if becomePass ≠ "" then ["--become-password-file", tmpName]
         else ["--ask-become-pass"])
      else [])

/-! ## Temp-file lifecycle of RunPlaybookStreaming (runner.go lines
176-240)

The filesystem is a set of paths (a boolean predicate); each fallible
step of the function has its outcome in the environment.  The
`defer os.Remove(tmpFile.Name())` registered right after a successful
`CreateTemp` runs on every return path below it. -/

structure StreamEnv where
  /-- Whether `os.Stat(playbook)` succeeds (playbook.yml present). -/
  playbookExists : Bool
  /-- `len(extraVars) > 0`. -/
  hasVars : Bool
  /-- Whether `json.Marshal(extraVars)` succeeds. -/
  marshalOk : Bool
  /-- Whether `os.CreateTemp` succeeds. -/
  createOk : Bool
  /-- The fresh name chosen by `os.CreateTemp` (flux-become-*). -/
  tmpName : String
  /-- Whether `tmpFile.WriteString(becomePass)` succeeds. -/
  writeOk : Bool
  /-- Whether `os.Chmod(tmpFile.Name(), 0600)` succeeds. -/
  chmodOk : Bool
  /-- Whether the ansible-playbook subprocess exits successfully. -/
  runOk : Bool

structure StreamOut where
  /-- `true` when the call returns nil error. -/
  ok : Bool
  /-- Whether a temp elevation-secret file was created. -/
  created : Bool
  /-- The filesystem after the call returns. -/
  fs : String → Bool

/-- Add or delete a path. -/
def fsSet (fs : String → Bool) (p : String) (b : Bool) : String → Bool :=
  fun q => if q = p then b else fs q

/-- `RunPlaybookStreaming` reduced to its effects on the filesystem
(runner.go lines 176-240): early returns before the elevation block
create nothing; once `CreateTemp` succeeds the deferred remove deletes
the file on every return path, whether the write, the chmod or the
subprocess fails or everything succeeds. -/
def runPlaybookStreamingFS (uid : Nat) (becomePass : String)
    (env : StreamEnv) (fs0 : String → Bool) : StreamOut :=
  if !env.playbookExists then ⟨false, false, fs0⟩
  else if env.hasVars && !env.marshalOk then ⟨false, false, fs0⟩
  else if uid ≠ 0 then
    if becomePass ≠ "" then
      if !env.createOk then ⟨false, false, fs0⟩
      else
        let fs1 := fsSet fs0 env.tmpName true
        if !env.writeOk then ⟨false, true, fsSet fs1 env.tmpName false⟩
        else if !env.chmodOk then ⟨false, true, fsSet fs1 env.tmpName false⟩
        else ⟨env.runOk, true, fsSet fs1 env.tmpName false⟩
    else ⟨env.runOk, false, fs0⟩
  else ⟨env.runOk, false, fs0⟩

/-! ## FindAnsibleDir (runner.go lines 46-85)

Paths are lists of components rooted at /; `filepath.Dir` is `dropLast`
(with the parent of the root being the root itself, which ends the
walk-up loop), and the `..` segments in the executable-relative
candidates are resolved the way `filepath.Join` cleans them.  The three
probes that can fail (`os.UserHomeDir`, `os.Executable`, `os.Getwd`) are
optional inputs, and `isAnsibleDir` (a stat of playbook.yml) is a
predicate parameter. -/

structure FindEnv where
  /-- `os.UserHomeDir()` when it succeeds. -/
  home : Option (List String)
  /-- `os.Executable()` when it succeeds (path of the running binary). -/
  exe : Option (List String)
  /-- `os.Getwd()` when it succeeds. -/
  cwd : Option (List String)

/-- The walk-up loop (runner.go lines 66-75): up to `n` iterations, each
appending `dir/ansible` and stopping once the parent equals the
directory (the root). -/
def walkUpCandidates : Nat → List String → List (List String)
  | 0, _ => []
  | Nat.succ n, dir =>
    (dir ++ ["ansible"]) ::
      (if dir.dropLast = dir then [] else walkUpCandidates n dir.dropLast)

/-- The candidate list of `FindAnsibleDir`, in order: the standard
install location under the home directory, three locations relative to
the executable, then the working directory and its ancestors (at most 10
entries). -/
def findCandidates (env : FindEnv) : List (List String) :=
  (match env.home with
   | some h => [h ++ [".local", "share", "flux", "ansible"]]
   | none => [])
  ++ (match env.exe with
      | some exe =>
        let exeDir := exe.dropLast
        [exeDir ++ ["ansible"], exeDir.dropLast ++ ["ansible"],
         exeDir.dropLast.dropLast ++ ["ansible"]]
      | none => [])
  ++ (match env.cwd with
      | some cwd => walkUpCandidates 10 cwd
      | none => [])

/-- `FindAnsibleDir`: the first candidate satisfying `isAnsibleDir`, or
the not-found error. -/
def findAnsibleDir (env : FindEnv) (isDir : List String → Bool) :
    Except String (List String) :=
  match (findCandidates env).find? isDir with
  | some c => .ok c
  | none => .error "cannot find ansible/ directory containing playbook.yml"

/-! ## Menu front end (package tui, internal/updater/updater.go lines
94-791 of the captured file) -/

/-- `AvailableRoles` (config.go lines 264-266). -/
def availableRoles : List String :=
  ["base", "git-config", "shell", "dev-tools"]

/-- The screen enumeration of the tui model. -/
inductive Screen where
  | main
  | roles
  | configMenu
  | configShow
  | configEdit
  | running
  | done
deriving DecidableEq

/-- The handler of the role-selection toggle-all key (case "a" of
`handleRoleSelect`): compute whether every role is selected, then set
every selection to the opposite.  The per-index map is modelled as a
list of booleans parallel to the role list. -/
def toggleAll (sel : List Bool) : List Bool :=
  let allSelected := sel.all (fun b => b)
  sel.map (fun _ => !allSelected)

/-- The tag list `executePlaybook` builds from the selection: the roles
whose index is selected, in order. -/
def tagsOf (roles : List String) (sel : List Bool) : List String :=
  (roles.zip sel).filterMap (fun rb => if rb.2 then some rb.1 else none)

/-- The slice of the tui model that `executePlaybook` reads. -/
structure TuiModel where
  screen : Screen
  dryRun : Bool
  roles : List String
  selected : List Bool
  cfg : Option Config
  message : String

/-- What `executePlaybook` did: the screen and message it left, whether
it flagged an error, whether it dispatched the runner command, and the
effects of the embedded load-or-create step. -/
structure ExecOut where
  screen : Screen
  message : String
  errFlag : Bool
  invokedRunner : Bool
  savedConfig : Bool
  promptedUser : Bool
deriving DecidableEq

/-- `executePlaybook` (updater.go captured lines 575-619): when the model
holds no config, run `LoadOrCreate` first (prompting and saving on a
missing file, or failing to the Done screen); then build the tag list
from the selection; an empty selection sets the message and stays on the
current screen; otherwise switch to Running and dispatch the runner. -/
def executePlaybook (m : TuiModel) (env : ConfigEnv) : ExecOut :=
  let afterConfig : Bool → Bool → ExecOut := fun saved prompted =>
    if tagsOf m.roles m.selected = [] then
      ⟨m.screen, "No roles selected", false, false, saved, prompted⟩
    else
      ⟨.running, m.message, false, true, saved, prompted⟩
  match m.cfg with
  | some _ => afterConfig false false
  | none =>
    let r := loadOrCreate env
    match r.result with
    | none => ⟨.done, "Config error", true, false, r.saved, r.prompted⟩
    | some _ => afterConfig r.saved r.prompted

/-! ## Concrete instances used by witnesses and counterexamples -/

/-- A concrete second-revision config pinning Python to 3.12 and leaving
the .NET version at the sentinel (upper-case, to exercise case folding). -/
def cfgLatest : Config2 :=
  { username := "bob", email := "", gitName := "", gitEmail := ""
    gitHTTPS := true, defaultShell := "zsh", installPodman := true
    installBun := true, installGo := true, goVersion := "latest"
    installDotnet := true, dotnetVersion := "LATEST"
    installPython := true, pythonVersion := "3.12"
    installK9s := true, extraPackages := []
    podmanWSLDistro := "", podmanWSLHost := "", podmanWSLPort := "" }

/-- A run of the streaming invocation by a non-root caller with a become
password where every step up to the subprocess succeeds and the
subprocess itself fails. -/
def streamEnvW : StreamEnv :=
  ⟨true, true, true, true, "/tmp/flux-become-123", true, true, false⟩

/-- A discovery environment: home directory /home/u, binary at
/home/u/.local/bin/flux, working directory /home/u/work. -/
def findEnvW : FindEnv :=
  ⟨some ["home", "u"], some ["home", "u", ".local", "bin", "flux"],
   some ["home", "u", "work"]⟩

/-- A filesystem where both the standard install location and the
cwd-relative candidate contain playbook.yml. -/
def isDirW : List String → Bool := fun d =>
  d == ["home", "u", ".local", "share", "flux", "ansible"] ||
  d == ["home", "u", "work", "ansible"]

/-- A role-selection model holding no loaded config, with nothing
selected. -/
def tuiModelNoCfg : TuiModel :=
  ⟨.roles, false, availableRoles, [false, false, false, false], none, ""⟩

/-- An environment with no settings file on disk: Load fails, the
prompter returns the default document, Save succeeds. -/
def envNoFile : ConfigEnv := ⟨none, some (defaultConfig "bob"), true⟩

/-- The same role-selection model with the default config loaded. -/
def tuiModelWithCfg : TuiModel :=
  ⟨.roles, false, availableRoles, [false, false, false, false],
   some (defaultConfig "bob"), ""⟩

/-! # Theorems -/

/-! ## Claim C1 -/

/-- Claim C1, counterexample to the exception clause: a settings document
with an unset ExtraPackages list does NOT encode the extra_packages key
as an empty sequence; the key is absent from the saved document. -/
theorem marshal_omits_empty_extra_packages :
    ({ defaultConfig "bob" with extraPackages := [] } : Config).extraPackages = [] ∧
    yamlMarshal { defaultConfig "bob" with extraPackages := [] } "extra_packages" = none := by
  exact ⟨rfl, rfl⟩

/-- Claim C1 (amended): saving any settings document and reading it back
yields a field-wise equal document, with no exception at all: every
omitempty field whose value is empty (the ExtraPackages list included)
encodes as an absent key and decodes back to that same empty value. -/
theorem save_load_roundtrip (c : Config) :
    yamlUnmarshal (yamlMarshal c) = c := by
  cases c
  simp only [yamlUnmarshal, yamlMarshal, getStr, getBool, getList]
  simp only [reduceIte, String.reduceEq]
  split_ifs <;> simp_all

/-! ## Claim C7 -/

/-- Claim C7, counterexample: a parseable settings file that omits fields
does not receive the DefaultConfig values for them; Load leaves missing
fields at the Go zero value, so a partially populated document is
returned (default_shell decodes to the empty string, not zsh, and
git_https to false, not true). -/
theorem load_missing_fields_not_default :
    (yamlUnmarshal (fun k => if k = "username" then some (.str "bob") else none)).defaultShell = "" ∧
    (defaultConfig "bob").defaultShell = "zsh" ∧
    (yamlUnmarshal (fun k => if k = "username" then some (.str "bob") else none)).gitHTTPS = false ∧
    (defaultConfig "bob").gitHTTPS = true := by
  exact ⟨rfl, rfl, rfl, rfl⟩

/-- Claim C7 (amended): for every settings file whose YAML parses but
omits some fields, Load yields a document in which each missing field
holds the Go zero value of its type (empty string, false, or empty
list), not the DefaultConfig value. -/
theorem unmarshal_missing_fields_zero (d : YamlMap) :
    (d "username" = none → (yamlUnmarshal d).username = "") ∧
    (d "email" = none → (yamlUnmarshal d).email = "") ∧
    (d "git_name" = none → (yamlUnmarshal d).gitName = "") ∧
    (d "git_email" = none → (yamlUnmarshal d).gitEmail = "") ∧
    (d "git_https" = none → (yamlUnmarshal d).gitHTTPS = false) ∧
    (d "default_shell" = none → (yamlUnmarshal d).defaultShell = "") ∧
    (d "install_podman" = none → (yamlUnmarshal d).installPodman = false) ∧
    (d "podman_wsl_distro" = none → (yamlUnmarshal d).podmanWSLDistro = "") ∧
    (d "podman_wsl_host" = none → (yamlUnmarshal d).podmanWSLHost = "") ∧
    (d "podman_wsl_port" = none → (yamlUnmarshal d).podmanWSLPort = "") ∧
    (d "install_bun" = none → (yamlUnmarshal d).installBun = false) ∧
    (d "install_go" = none → (yamlUnmarshal d).installGo = false) ∧
    (d "go_version" = none → (yamlUnmarshal d).goVersion = "") ∧
    (d "install_dotnet" = none → (yamlUnmarshal d).installDotnet = false) ∧
    (d "dotnet_version" = none → (yamlUnmarshal d).dotnetVersion = "") ∧
    (d "install_python" = none → (yamlUnmarshal d).installPython = false) ∧
    (d "python_version" = none → (yamlUnmarshal d).pythonVersion = "") ∧
    (d "extra_packages" = none → (yamlUnmarshal d).extraPackages = []) := by
  refine ⟨?_, ?_, ?_, ?_, ?_, ?_, ?_, ?_, ?_, ?_, ?_, ?_, ?_, ?_, ?_, ?_, ?_, ?_⟩ <;>
    (intro h; simp [yamlUnmarshal, getStr, getBool, getList, h])

/-- Claim C7 witness: the empty document decodes every field to its zero
value. -/
theorem unmarshal_missing_fields_zero_witness :
    (yamlUnmarshal (fun _ => none)).username = "" ∧
    (yamlUnmarshal (fun _ => none)).defaultShell = "" ∧
    (yamlUnmarshal (fun _ => none)).gitHTTPS = false ∧
    (yamlUnmarshal (fun _ => none)).extraPackages = [] := by
  have h := unmarshal_missing_fields_zero (fun _ => none)
  exact ⟨h.1 rfl, (h.2.2.2.2.2).1 rfl, (h.2.2.2.2).1 rfl,
    (h.2.2.2.2.2.2.2.2.2.2.2.2.2.2.2.2.2) rfl⟩


/-! ## Claim C5 -/

/-- Claim C5: a version field case-insensitively equal to "latest" is
omitted from the extra-vars map (no dotnet_version / python_version
entry); any other value appears under its key unchanged. -/
theorem toExtraVars_latest_omitted (c : Config2) :
    (eqFold c.dotnetVersion "latest" = true →
      toExtraVars c "dotnet_version" = none) ∧
    (eqFold c.dotnetVersion "latest" = false →
      toExtraVars c "dotnet_version" = some (.str c.dotnetVersion)) ∧
    (eqFold c.pythonVersion "latest" = true →
      toExtraVars c "python_version" = none) ∧
    (eqFold c.pythonVersion "latest" = false →
      toExtraVars c "python_version" = some (.str c.pythonVersion)) := by
  refine ⟨?_, ?_, ?_, ?_⟩ <;> intro h <;>
    (simp only [toExtraVars]; split_ifs <;>
      simp_all [mapSet, toExtraVarsBase])

/-- Claim C5 witness: with the .NET version at the sentinel and Python
pinned, the map omits dotnet_version and carries python_version. -/
theorem toExtraVars_latest_omitted_witness :
    toExtraVars cfgLatest "dotnet_version" = none ∧
    toExtraVars cfgLatest "python_version" = some (.str "3.12") := by
  have h := toExtraVars_latest_omitted cfgLatest
  exact ⟨h.1 (by decide), h.2.2.2 (by decide)⟩

/-! ## Claim C6 -/

/-- Claim C6, counterexample: the tokens true and 1 are not truthy for
promptBool: both yield false (here even against a true current value, so
this is not the empty-input default either). -/
theorem promptBool_rejects_true_and_one :
    promptBool "true" false = false ∧ promptBool "1" true = false := by
  exact ⟨by decide, by decide⟩

/-- Claim C6 (amended): after lower-casing and trimming, promptBool is
true exactly on the tokens y and yes; the empty response keeps the
current value; every other response is false. -/
theorem promptBool_truthy_tokens (line : String) (current : Bool) :
    promptBool line current = true ↔
      (strTrim (strToLower line) = "y" ∨ strTrim (strToLower line) = "yes" ∨
        (strTrim (strToLower line) = "" ∧ current = true)) := by
  simp only [promptBool]
  split_ifs with h <;> simp_all

/-! ## Claim C10 -/

/-- Claim C10: whenever Load succeeds, LoadOrCreate returns exactly the
loaded document, runs no prompt and writes nothing. -/
theorem loadOrCreate_load_success_frame (env : ConfigEnv) (c : Config)
    (h : env.loadResult = some c) :
    loadOrCreate env = ⟨some c, false, false⟩ := by
  simp [loadOrCreate, h]

/-- Claim C10 witness: a concrete environment whose Load yields the
default document. -/
theorem loadOrCreate_load_success_frame_witness :
    loadOrCreate ⟨some (defaultConfig "bob"), none, true⟩ =
      ⟨some (defaultConfig "bob"), false, false⟩ :=
  loadOrCreate_load_success_frame ⟨some (defaultConfig "bob"), none, true⟩
    (defaultConfig "bob") rfl

/-! ## Claim C2 -/

/-- Claim C2: every argument list built by RunPlaybook or
RunPlaybookStreaming with dryRun set contains both --check and --diff,
whatever the other inputs are. -/
theorem dry_run_args_have_check_and_diff (dir json : String) (hasVars : Bool)
    (tags : String) (uid : Nat) (becomePass tmp : String) :
    "--check" ∈ runPlaybookArgs dir json hasVars tags true uid ∧
    "--diff" ∈ runPlaybookArgs dir json hasVars tags true uid ∧
    "--check" ∈ runPlaybookStreamingArgs dir json hasVars tags true uid becomePass tmp ∧
    "--diff" ∈ runPlaybookStreamingArgs dir json hasVars tags true uid becomePass tmp := by
  refine ⟨?_, ?_, ?_, ?_⟩ <;>
    (simp only [runPlaybookArgs, runPlaybookStreamingArgs]; split_ifs <;> simp)

/-! ## Claim C3 -/

/-- Claim C3: whenever RunPlaybookStreaming created the temporary
elevation-secret file, the file is gone from the filesystem when the
call returns, on the write-failure, chmod-failure, subprocess-failure
and success paths alike. -/
theorem become_tmpfile_absent_after_return (uid : Nat) (becomePass : String)
    (env : StreamEnv) (fs0 : String → Bool)
    (h : (runPlaybookStreamingFS uid becomePass env fs0).created = true) :
    (runPlaybookStreamingFS uid becomePass env fs0).fs env.tmpName = false := by
  simp only [runPlaybookStreamingFS] at h ⊢
  split_ifs at h ⊢ <;> simp_all [fsSet]


/-- Claim C3 witness: with the subprocess forced to fail, the created
secret file is absent afterwards. -/
theorem become_tmpfile_absent_after_return_witness :
    (runPlaybookStreamingFS 1000 "hunter2" streamEnvW (fun _ => false)).fs
      "/tmp/flux-become-123" = false :=
  become_tmpfile_absent_after_return 1000 "hunter2" streamEnvW
    (fun _ => false) rfl

/-! ## Claim C4 -/

/-- In any list, if some position holds an element satisfying p, then
find? returns the element at the least such position, which is no later
than the given one. -/
theorem find_first_of_getElem {α : Type} (p : α → Bool) :
    ∀ (l : List α) (i : Nat) (c : α), l[i]? = some c → p c = true →
      ∃ k c2, k ≤ i ∧ l[k]? = some c2 ∧ p c2 = true ∧ l.find? p = some c2 ∧
        ∀ m d, m < k → l[m]? = some d → p d = false := by
  intro l
  induction l with
  | nil => intro i c h; simp at h
  | cons a t ih =>
    intro i c hg hp
    by_cases ha : p a = true
    · refine ⟨0, a, Nat.zero_le i, by simp, ha, List.find?_cons_of_pos t ha, ?_⟩
      intro m d hm _
      exact absurd hm (Nat.not_lt_zero m)
    · have ha2 : p a = false := by simpa using ha
      cases i with
      | zero =>
        rw [List.getElem?_cons_zero] at hg
        injection hg with hac
        rw [hac] at ha2
        rw [hp] at ha2
        cases ha2
      | succ j =>
        rw [List.getElem?_cons_succ] at hg
        obtain ⟨k, c2, hk, hgk, hpc2, hfind, hmin⟩ := ih j c hg hp
        refine ⟨k + 1, c2, Nat.succ_le_succ hk, by simpa using hgk, hpc2, ?_, ?_⟩
        · rw [List.find?_cons_of_neg t (by simp [ha2])]
          exact hfind
        · intro m d hm hgd
          cases m with
          | zero =>
            rw [List.getElem?_cons_zero] at hgd
            injection hgd with had
            rw [← had]
            exact ha2
          | succ m2 =>
            rw [List.getElem?_cons_succ] at hgd
            exact hmin m2 d (by omega) hgd

/-- Claim C4: FindAnsibleDir returns the not-found error when no
candidate qualifies, and otherwise the first qualifying candidate in
priority order: whenever position i holds a qualifying candidate, the
result is the qualifying candidate at the least position k ≤ i, every
earlier candidate failing the probe. -/
theorem findAnsibleDir_first_match (env : FindEnv) (isDir : List String → Bool) :
    ((∀ c ∈ findCandidates env, isDir c = false) →
      findAnsibleDir env isDir =
        .error "cannot find ansible/ directory containing playbook.yml") ∧
    (∀ (i : Nat) (c : List String),
      (findCandidates env)[i]? = some c → isDir c = true →
      ∃ (k : Nat) (c2 : List String), k ≤ i ∧
        (findCandidates env)[k]? = some c2 ∧ isDir c2 = true ∧
        findAnsibleDir env isDir = .ok c2 ∧
        ∀ (m : Nat) (d : List String),
          m < k → (findCandidates env)[m]? = some d → isDir d = false) := by
  constructor
  · intro hnone
    have hfind : (findCandidates env).find? isDir = none :=
      List.find?_eq_none.mpr (fun x hx => by simp [hnone x hx])
    simp [findAnsibleDir, hfind]
  · intro i c hg hp
    obtain ⟨k, c2, hk, hgk, hpc2, hfind, hmin⟩ :=
      find_first_of_getElem isDir (findCandidates env) i c hg hp
    exact ⟨k, c2, hk, hgk, hpc2, by simp [findAnsibleDir, hfind], hmin⟩



/-- Claim C4 witness: the cwd candidate sits at position 4 and is valid,
yet discovery returns the standard install location (position 0, the
higher-priority valid candidate); and with no valid candidate the
not-found error comes back. -/
theorem findAnsibleDir_first_match_witness :
    (∃ (k : Nat) (c2 : List String), k ≤ 4 ∧
      (findCandidates findEnvW)[k]? = some c2 ∧
      isDirW c2 = true ∧ findAnsibleDir findEnvW isDirW = .ok c2 ∧
      ∀ (m : Nat) (d : List String),
        m < k → (findCandidates findEnvW)[m]? = some d → isDirW d = false) ∧
    findAnsibleDir findEnvW isDirW =
      .ok ["home", "u", ".local", "share", "flux", "ansible"] ∧
    findAnsibleDir findEnvW (fun _ => false) =
      .error "cannot find ansible/ directory containing playbook.yml" := by
  refine ⟨(findAnsibleDir_first_match findEnvW isDirW).2 4
    ["home", "u", "work", "ansible"] (by decide) (by decide), rfl,
    (findAnsibleDir_first_match findEnvW (fun _ => false)).1 (fun c hc => rfl)⟩

/-! ## Claim C8 -/

/-- Claim C8, counterexample: from the mixed selection true false true
true, two presses of the toggle-all key yield the all-false selection,
not the original state; the double toggle is not the identity on every
selection state. -/
theorem toggle_all_twice_mixed_not_identity :
    toggleAll (toggleAll [true, false, true, true]) = [false, false, false, false] ∧
    toggleAll (toggleAll [true, false, true, true]) ≠ [true, false, true, true] := by
  exact ⟨by decide, by decide⟩

/-- Lists of booleans that are all true are fixed by mapping to true. -/
theorem map_const_true_of_all (l : List Bool) (h : ∀ b ∈ l, b = true) :
    l.map (fun _ => true) = l := by
  induction l with
  | nil => rfl
  | cons a t ih =>
    have ha := h a (by simp)
    have ht := ih (fun b hb => h b (by simp [hb]))
    simp [ha, ht]

/-- Claim C8 (amended): starting from all roles selected, one press of
the toggle-all key deselects every role and a second press re-selects
every role, restoring the original state; on a mixed selection the
double press instead lands on all-deselected. -/
theorem toggle_all_twice_from_all_selected (sel : List Bool)
    (h : sel.all (fun b => b) = true) :
    toggleAll sel = sel.map (fun _ => false) ∧
    toggleAll (toggleAll sel) = sel := by
  have hall : ∀ b ∈ sel, b = true := by simpa using h
  have h1 : toggleAll sel = sel.map (fun _ => false) := by
    simp [toggleAll, h]
  refine ⟨h1, ?_⟩
  rw [h1]
  cases sel with
  | nil => rfl
  | cons a t =>
    have h2 : (((a :: t).map (fun _ => false)).all (fun b => b)) = false := by
      simp
    simp only [toggleAll, h2, Bool.not_false, List.map_map, Function.comp]
    exact map_const_true_of_all (a :: t) hall

/-- Claim C8 witness: the four available roles, all selected; one toggle
clears all four and the second restores them. -/
theorem toggle_all_twice_from_all_selected_witness :
    toggleAll [true, true, true, true] = [false, false, false, false] ∧
    toggleAll (toggleAll [true, true, true, true]) = [true, true, true, true] :=
  toggle_all_twice_from_all_selected [true, true, true, true] (by decide)

/-! ## Claim C9 -/



/-- Claim C9, counterexample: confirming with an empty selection from a
model with no loaded config is not a no-op: executePlaybook first runs
the load-or-create step, which prompts the user and saves a new settings
file, before it detects the empty selection (it still reports No roles
selected and does not invoke the runner). -/
theorem executePlaybook_empty_selection_saves_config :
    (executePlaybook tuiModelNoCfg envNoFile).savedConfig = true ∧
    (executePlaybook tuiModelNoCfg envNoFile).promptedUser = true ∧
    (executePlaybook tuiModelNoCfg envNoFile).message = "No roles selected" ∧
    (executePlaybook tuiModelNoCfg envNoFile).invokedRunner = false := by
  exact ⟨rfl, rfl, rfl, rfl⟩

/-- Claim C9 (amended): when a settings document is already loaded,
confirming a run with an empty role selection is a no-op: the runner is
not invoked, nothing is prompted or saved, no error state is entered,
the message is No roles selected and the screen stays where it was. -/
theorem executePlaybook_empty_selection_noop (m : TuiModel) (env : ConfigEnv)
    (c : Config) (hc : m.cfg = some c)
    (hsel : tagsOf m.roles m.selected = []) :
    executePlaybook m env =
      ⟨m.screen, "No roles selected", false, false, false, false⟩ := by
  simp [executePlaybook, hc, hsel]


/-- Claim C9 witness: with a loaded config and the empty selection, the
call leaves everything unchanged apart from the message. -/
theorem executePlaybook_empty_selection_noop_witness :
    executePlaybook tuiModelWithCfg envNoFile =
      ⟨Screen.roles, "No roles selected", false, false, false, false⟩ :=
  executePlaybook_empty_selection_noop tuiModelWithCfg envNoFile
    (defaultConfig "bob") rfl (by decide)

end Flux
